import Mathlib

/-!
Shallow embedding of the Twitter chat bot (`src/chat-bot.py`) for the
scheduling and resilience loop, plus the four action functions.

Conventions of the embedding:
* Python exceptions thrown by the collaborator (tweepy) are modelled as
  explicit "raw outcome" inductive types supplied to each function as an
  environment; an `except` chain becomes a `match` over those outcomes.
* Machine time is an `Int` number of seconds (`time.time()`); the code
  initialises `last_tweet_time = 0` (line 283), so "never ran" is the
  sentinel value `0`, not an option type.
* Python truthiness tests (`if post_tweet(...)`, `if not since_id`) are
  modelled by `pyTruthy`: `None` is falsy and the integer `0` is falsy.
-/

namespace ChatBot

/-- `TWEET_INTERVAL = 60 * 60` (line 37): post every 60 minutes, in seconds. -/
def TWEET_INTERVAL : Int := 60 * 60

/-- `MAX_LIKES_PER_RUN = 3` (line 39). -/
def MAX_LIKES_PER_RUN : Nat := 3

/-- `max_errors = 5` (line 287): fatal consecutive-error threshold. -/
def maxErrors : Nat := 5

/-- Base backoff delay, the `300` in `min(300 * (2 ** (n - 1)), 3600)` (line 332). -/
def baseDelay : Nat := 300

/-- Backoff ceiling, the `3600` in `min(300 * (2 ** (n - 1)), 3600)` (line 332). -/
def capSeconds : Nat := 3600

/-- Steady-state inter-cycle sleep: `time.sleep(100)` (line 318). -/
def steadySleep : Nat := 100

/-- Python truthiness of an optional natural number: `None` is falsy and
`0` is falsy; any other integer is truthy.  Used for `if post_tweet(...)`
(line 299) and `if not since_id` (line 193). -/
def pyTruthy : Option Nat → Bool
  | none => false
  | some n => n != 0

/-- Raw outcome of the single `client.create_tweet` call inside `post_tweet`
(lines 115-128): success with a tweet id, `tweepy.TooManyRequests`,
`tweepy.Forbidden`, or any other exception with its message. -/
inductive PostRaw where
  | ok (id : Nat)
  | tooManyRequests
  | forbidden
  | exn (msg : String)
deriving DecidableEq

/-- `post_tweet` (lines 112-128): returns the new tweet id on success; every
handled exception (rate limit, forbidden, anything else) is logged and the
function returns `None`. -/
def postTweet : PostRaw → Option Nat
  | .ok id => some id
  | .tooManyRequests => none
  | .forbidden => none
  | .exn _ => none

/-- Cadence check of the main loop, line 298:
`current_time - last_tweet_time >= TWEET_INTERVAL`, generalised over the
minimum interval.  `lastRunAt` is a plain integer; the loop initialises it
to `0` (line 283) as the "never ran" sentinel. -/
def isDue (minInterval lastRunAt now : Int) : Bool :=
  decide (minInterval ≤ now - lastRunAt)

/-- Modelled from the spec's words for comparison with `isDue` (the code
keeps `lastRunAt` as a plain integer initialised to `0`): "returns true iff
`spec.lastRunAt` is unset or `now - spec.lastRunAt >= spec.minInterval`". -/
def isDueSpec (minInterval : Int) (lastRunAt : Option Int) (now : Int) : Bool :=
  match lastRunAt with
  | none => true
  | some t => decide (minInterval ≤ now - t)

/-- What the loop does right after incrementing `consecutive_errors`:
either break out of the loop (line 327-329) or sleep a computed backoff
(lines 332-334). -/
inductive BackoffDecision where
  | stop
  | sleep (seconds : Nat)
deriving DecidableEq

/-- The backoff wait of line 332: `min(300 * (2 ** (n - 1)), 3600)` where
`n` is the consecutive-error count after the increment. -/
def backoffWait (n : Nat) : Nat :=
  min (baseDelay * 2 ^ (n - 1)) capSeconds

/-- Decision taken after the `n`-th consecutive failed cycle (lines
327-334): at `consecutive_errors >= max_errors` the loop breaks without
sleeping; otherwise it sleeps `backoffWait n` seconds. -/
def onFailure (n : Nat) : BackoffDecision :=
  if maxErrors ≤ n then .stop else .sleep (backoffWait n)

/-- Status of the main loop process. `stoppedUser` is the
`except KeyboardInterrupt` branch (lines 320-322), which prints the
goodbye line and breaks; `stoppedFatal` is the `max_errors` break (lines
327-329); `crashed` is an exception propagating out of `run_bot`
uncaught (e.g. a `KeyboardInterrupt` raised during the backoff sleep at
line 334, which no handler encloses). -/
inductive BotStatus where
  | running
  | stoppedUser
  | stoppedFatal
  | crashed
deriving DecidableEq

/-- The mutable state of `run_bot`'s main loop that the claims are about:
`last_tweet_time` (line 283), `consecutive_errors` (line 286) and whether
the loop is still running. -/
structure BotState where
  lastTweetTime : Int
  consecutiveErrors : Nat
  status : BotStatus
deriving DecidableEq

/-- Loop state right after authentication (lines 282-287). -/
def initialState : BotState := ⟨0, 0, .running⟩

/-- One iteration of `while True` (lines 290-334), driven by what the
environment does during that iteration:
* `run now post interruptSleep`: the `try` body runs to completion — the
  clock reads `now`, the (possibly skipped) `post_tweet` call behaves as
  `post`, `consecutive_errors` is reset, and then, if `interruptSleep`,
  a `KeyboardInterrupt` arrives during `time.sleep(100)`.
* `interruptStart`: a `KeyboardInterrupt` arrives at the start of the tick,
  before any action runs.
* `raise msg interruptBackoff`: an exception escapes the `try` body into
  `except Exception` (line 323); if `interruptBackoff`, a
  `KeyboardInterrupt` arrives during the backoff `time.sleep(wait_time)`
  (line 334), where no handler catches it. -/
inductive CycleEvent where
  | run (now : Int) (post : PostRaw) (interruptSleep : Bool)
  | interruptStart
  | raise (msg : String) (interruptBackoff : Bool)

/-- One iteration of the main loop (lines 290-334).  In the `run` case the
posting block (lines 298-300) updates `last_tweet_time` only when the
action was due and `post_tweet` returned a truthy id, then line 314 resets
`consecutive_errors` to 0.  In the `raise` case line 324 increments the
counter, line 327 breaks at the threshold, and otherwise line 334 sleeps
the backoff (during which an interrupt is uncaught). -/
def stepCycle (s : BotState) (e : CycleEvent) : BotState :=
  if s.status = .running then
    match e with
    | .interruptStart => { s with status := .stoppedUser }
    | .run now post intr =>
        let lt :=
          if isDue TWEET_INTERVAL s.lastTweetTime now && pyTruthy (postTweet post)
          then now else s.lastTweetTime
        ⟨lt, 0, if intr then .stoppedUser else .running⟩
    | .raise _ bintr =>
        let n := s.consecutiveErrors + 1
        match onFailure n with
        | .stop => ⟨s.lastTweetTime, n, .stoppedFatal⟩
        | .sleep _ => ⟨s.lastTweetTime, n, if bintr then .crashed else .running⟩
  else s

/-- Repeated iterations of the main loop. -/
def runBot (s : BotState) (evs : List CycleEvent) : BotState :=
  evs.foldl stepCycle s

/-! ### like_tweets (lines 130-166) -/

/-- Raw outcome of one `api_v1.create_favorite(tweet.id)` call (line 150):
success, a `tweepy.TweepyException` with its message (caught by the inner
handler, lines 154-158), or any other exception (not caught by the inner
handler; it escapes to the outer `except Exception`, line 164). -/
inductive FavRaw where
  | ok
  | tweepyExn (msg : String)
  | exn (msg : String)
deriving DecidableEq

/-- One tweet returned by the search, paired with what happens when the
bot tries to like it. -/
structure LikeTweet where
  id : Nat
  fav : FavRaw
deriving DecidableEq

/-- Raw outcome of `client_v2.search_recent_tweets` (lines 136-140):
a result list (possibly empty, `tweets.data` falsy), a rate limit, or any
other exception. -/
inductive SearchRaw where
  | ok (tweets : List LikeTweet)
  | tooManyRequests
  | exn (msg : String)
deriving DecidableEq

/-- `b` matches the leading characters of `l`. -/
def leadMatch : List Char → List Char → Bool
  | [], _ => true
  | _ :: _, [] => false
  | a :: as, b :: bs => a == b && leadMatch as bs

/-- Python's `pat in s` on character lists: `pat` occurs contiguously in
the second list. -/
def hasSub (pat : List Char) : List Char → Bool
  | [] => leadMatch pat []
  | b :: bs => leadMatch pat (b :: bs) || hasSub pat bs

/-- Line 155: `"already favorited" in str(e).lower()`. -/
def errAlreadyFavorited (msg : String) : Bool :=
  hasSub "already favorited".data (msg.data.map Char.toLower)

/-- The two branches of the inner handler (lines 154-158). -/
inductive FavKind where
  | alreadyDone
  | otherError
deriving DecidableEq

/-- Classification performed by the inner `except tweepy.TweepyException`
handler (lines 154-158): a message containing "already favorited" is the
benign already-done case (logged at info), anything else is logged as an
error; both branches continue the loop. -/
def classifyFav (msg : String) : FavKind :=
  if errAlreadyFavorited msg then .alreadyDone else .otherError

/-- The `for tweet in tweets.data[:MAX_LIKES_PER_RUN]` loop (lines
147-158), accumulating `liked_count`.  A `tweepy.TweepyException` is
caught by the inner handler and the loop continues; any other exception
escapes the loop (to be caught by the outer handler). -/
def likeLoop : List FavRaw → Nat → Except String Nat
  | [], c => .ok c
  | .ok :: rest, c => likeLoop rest (c + 1)
  | .tweepyExn _ :: rest, c => likeLoop rest c
  | .exn m :: _, _ => .error m

/-- `like_tweets` (lines 130-166): rate limits and other search exceptions
return `0`; an empty search result returns `0`; otherwise the like loop
runs over the first `MAX_LIKES_PER_RUN` tweets, and an exception escaping
the inner handler is caught by the outer `except Exception` which returns
`0`. -/
def likeTweets : SearchRaw → Nat
  | .tooManyRequests => 0
  | .exn _ => 0
  | .ok tweets =>
      if tweets.isEmpty then 0
      else
        match likeLoop ((tweets.take MAX_LIKES_PER_RUN).map LikeTweet.fav) 0 with
        | .ok c => c
        | .error _ => 0

/-! ### reply_to_mentions (lines 168-228) -/

/-- One mention (lines 192-220): its id, whether the fallback username
lookup `client.get_user(id=author_id)` (line 207) raises (that call is
outside the inner `try`, so a failure escapes to the outer handler), and
whether the `client.create_tweet` reply (line 213) raises (caught by the
inner handler, lines 219-220). -/
structure MentionEnv where
  id : Nat
  lookupFails : Bool
  replyFails : Bool
deriving DecidableEq

/-- Raw outcome of `client.get_me` / `client.get_users_mentions` (lines
172-183): a list of mentions (possibly empty, `mentions.data` falsy), a
rate limit, or any other exception. -/
inductive FetchRaw where
  | ok (mentions : List MentionEnv)
  | tooManyRequests
  | exn (msg : String)
deriving DecidableEq

/-- The `for mention in mentions.data` loop (lines 192-220), threading
`new_since_id`.  Line 193: `if not since_id or mention.id > since_id`;
line 194: `if not new_since_id or mention.id > new_since_id` then
`new_since_id = mention.id`.  A failing username lookup escapes as an
error to the outer handler; a failing reply is caught inline and the loop
continues. -/
def replyLoop (sinceId : Option Nat) : List MentionEnv → Option Nat → Except Unit (Option Nat)
  | [], new => .ok new
  | m :: rest, new =>
      if !pyTruthy sinceId || decide (sinceId.getD 0 < m.id) then
        let new' := if !pyTruthy new || decide (new.getD 0 < m.id) then some m.id else new
        if m.lookupFails then .error ()
        else replyLoop sinceId rest new'
      else replyLoop sinceId rest new

/-- `reply_to_mentions` (lines 168-228): the outer handlers (lines
223-228) return the input `since_id` unchanged on a rate limit or any
other exception, an empty mention list returns `since_id` (line 187), and
otherwise the loop's final `new_since_id` is returned (line 222). -/
def replyToMentions (sinceId : Option Nat) : FetchRaw → Option Nat
  | .tooManyRequests => sinceId
  | .exn _ => sinceId
  | .ok ms =>
      if ms.isEmpty then sinceId
      else
        match replyLoop sinceId ms sinceId with
        | .ok new => new
        | .error _ => sinceId

/-! ### follow_back_users (lines 230-268) -/

/-- One follower in the iteration (lines 246-258): its id and whether
`client.follow_user(follower.id)` succeeds (a failure is caught by the
inner `except Exception`, lines 257-258, and the loop continues). -/
structure FollowerEnv where
  id : Nat
  followOk : Bool
deriving DecidableEq

/-- Raw outcome of the pre-loop calls of `follow_back_users` (`get_me`,
the follower/following cursors, lines 233-243): the follower list and the
already-following id set, or any exception (caught by the outer handler,
lines 266-268). -/
inductive FollowFetchRaw where
  | ok (followers : List FollowerEnv) (followingIds : List Nat)
  | exn (msg : String)
deriving DecidableEq

/-- The `for follower in followers` loop (lines 246-258): skip ids already
followed, count successful follows, stop after 5 new follows (lines
254-256), and continue past follow errors. -/
def followLoop : List FollowerEnv → List Nat → Nat → Nat
  | [], _, c => c
  | f :: rest, followingIds, c =>
      if f.id ∈ followingIds then followLoop rest followingIds c
      else if f.followOk then
        let c' := c + 1
        if 5 ≤ c' then c' else followLoop rest followingIds c'
      else followLoop rest followingIds c

/-- `follow_back_users` (lines 230-268): any exception escaping to the
outer handler returns `0`; otherwise the count of new follows. -/
def followBackUsers : FollowFetchRaw → Nat
  | .exn _ => 0
  | .ok followers followingIds => followLoop followers followingIds 0

/-! ### get_credentials / authenticate_twitter / run_bot startup
(lines 49-110 and 274-278) -/

/-- The five credential environment variables read by `get_credentials`
(lines 51-57); `os.getenv` yields `None` when unset. -/
structure EnvVars where
  apiKey : Option String
  apiSecret : Option String
  accessToken : Option String
  accessSecret : Option String
  bearerToken : Option String
deriving DecidableEq

/-- Python truthiness of `os.getenv(var)` at line 60: `None` and the empty
string are falsy. -/
def pyFalsyStr : Option String → Bool
  | none => true
  | some s => s.isEmpty

/-- Line 60-64: `get_credentials` returns `None` iff any required variable
is missing (falsy). -/
def credentialsMissing (env : EnvVars) : Bool :=
  pyFalsyStr env.apiKey || pyFalsyStr env.apiSecret || pyFalsyStr env.accessToken ||
    pyFalsyStr env.accessSecret || pyFalsyStr env.bearerToken

/-- Raw outcome of the client construction and `client_v1.get_me()`
verification inside `authenticate_twitter`'s `try` (lines 81-104). -/
inductive ConnectRaw where
  | ok (username : String)
  | tweepyErr (msg : String)
deriving DecidableEq

/-- Shape of `authenticate_twitter`'s return value.  The missing-credential
path returns the two-element tuple `None, None` (line 79); both paths
inside the `try`/`except` return three-element tuples (lines 106 and
110). -/
inductive AuthReturn where
  | pair (a b : Option Unit)
  | triple (a b c : Option Unit)
deriving DecidableEq

/-- `authenticate_twitter` (lines 75-110), with the clients abstracted to
present/absent. -/
def authenticateTwitter (env : EnvVars) (conn : ConnectRaw) : AuthReturn :=
  if credentialsMissing env then .pair none none
  else
    match conn with
    | .ok _ => .triple (some ()) (some ()) (some ())
    | .tweepyErr _ => .triple none none none

/-- How `run_bot`'s startup (lines 274-278) ends before the main loop:
`unpackCrash` is the uncaught `ValueError` raised when the three-variable
unpacking `client_v1, client_v2, api_v1 = authenticate_twitter()` (line
275) receives a two-element tuple; `authFailedLogged` is the
`"Error: Could not authenticate"` status line followed by `return` (lines
276-278); `entersLoop` means the main loop is entered. -/
inductive StartResult where
  | unpackCrash
  | authFailedLogged
  | entersLoop
deriving DecidableEq

/-- The startup of `run_bot` (lines 274-278). -/
def runBotStart (env : EnvVars) (conn : ConnectRaw) : StartResult :=
  match authenticateTwitter env conn with
  | .pair _ _ => .unpackCrash
  | .triple a b _ =>
      if !a.isSome || !b.isSome then .authFailedLogged else .entersLoop

/-- Environment with `TWITTER_API_KEY` unset and the other four
credential variables present. -/
def envMissingApiKey : EnvVars :=
  ⟨none, some "secret", some "token", some "access", some "bearer"⟩

/-- Order on optional mention cursors: an unset cursor is below
everything, set cursors compare by value. -/
def optLe : Option Nat → Option Nat → Prop
  | none, _ => True
  | some v, b => ∃ w, b = some w ∧ v ≤ w

/-- Invariant relating the running `new_since_id` of `reply_to_mentions`
to the input `since_id`: either the running cursor still equals the input
or it has been set to a value strictly above any set input. -/
def cursorInv (sinceId new : Option Nat) : Prop :=
  new = sinceId ∨ ∃ i, new = some i ∧ ∀ v, sinceId = some v → v < i

/-! ### Supporting lemmas -/

/-- Once the loop has left the `running` status no further iteration
changes the state (the `while` loop has been exited). -/
lemma runBot_stopped (s : BotState) (evs : List CycleEvent)
    (h : s.status ≠ .running) : runBot s evs = s := by
  induction evs with
  | nil => rfl
  | cons e rest ih =>
      show runBot (stepCycle s e) rest = s
      have hs : stepCycle s e = s := by
        unfold stepCycle
        simp [h]
      rw [hs, ih]

/-! ### Claims -/

/-- C1 counterexample: the claim says that a cycle containing a classified
failure (here `post_tweet` absorbing an arbitrary exception and returning
`None`, lines 126-128) increments `consecutive_errors` rather than
resetting it.  In the code the `try` body still completes, so line 314
resets the counter from 3 to 0 instead of incrementing it to 4. -/
theorem c1_cycle_failure_counterexample :
    postTweet (.exn "transient") = none
    ∧ (stepCycle ⟨0, 3, .running⟩ (.run 7200 (.exn "transient") false)).consecutiveErrors = 0
    ∧ (stepCycle ⟨0, 3, .running⟩ (.run 7200 (.exn "transient") false)).consecutiveErrors ≠ 3 + 1 := by
  refine ⟨rfl, ?_, ?_⟩ <;> decide

/-- C1 (amended): classified failures (RateLimited, Forbidden, Transient,
Unknown) are absorbed inside the action, which returns the sentinel
`None`; the cycle still completes, keeps running, and resets
`consecutiveFailures` to 0.  The counter is incremented only when an
exception escapes the loop body itself into `except Exception`. -/
theorem c1_classified_failures_absorbed (s : BotState) (now : Int) (e : PostRaw)
    (hs : s.status = .running) (he : ∀ id, e ≠ .ok id) :
    postTweet e = none
    ∧ (stepCycle s (.run now e false)).consecutiveErrors = 0
    ∧ (stepCycle s (.run now e false)).status = .running
    ∧ ∀ msg bintr, (stepCycle s (.raise msg bintr)).consecutiveErrors = s.consecutiveErrors + 1 := by
  refine ⟨?_, ?_, ?_, ?_⟩
  · cases e with
    | ok id => exact absurd rfl (he id)
    | tooManyRequests => rfl
    | forbidden => rfl
    | exn m => rfl
  · unfold stepCycle; simp [hs]
  · unfold stepCycle; simp [hs]
  · intro msg bintr
    unfold stepCycle
    simp only [hs, if_pos rfl]
    cases h : onFailure (s.consecutiveErrors + 1) <;> simp [h]

/-- Witness for C1 (amended) at a concrete failing state and event. -/
theorem c1_classified_failures_absorbed_witness :
    postTweet .forbidden = none
    ∧ (stepCycle ⟨0, 2, .running⟩ (.run 4000 .forbidden false)).consecutiveErrors = 0
    ∧ (stepCycle ⟨0, 2, .running⟩ (.run 4000 .forbidden false)).status = .running
    ∧ ∀ msg bintr,
        (stepCycle ⟨0, 2, .running⟩ (.raise msg bintr)).consecutiveErrors = 2 + 1 :=
  c1_classified_failures_absorbed ⟨0, 2, .running⟩ 4000 .forbidden rfl
    (fun id h => PostRaw.noConfusion h)

/-- C2 counterexample: the claim's scenario says failures 1..5 yield the
sleeps 300, 600, 1200, 2400, 3600.  In the code failure 5 reaches the
`consecutive_errors >= max_errors` break (line 327) before the sleep, so
the decisions are sleep 300, 600, 1200, 2400 and then stop — the 3600
cap is never slept. -/
theorem c2_backoff_counterexample :
    [onFailure 1, onFailure 2, onFailure 3, onFailure 4, onFailure 5]
      = [.sleep 300, .sleep 600, .sleep 1200, .sleep 2400, .stop]
    ∧ onFailure 5 ≠ .sleep 3600 := by
  constructor <;> decide

/-- C2 (amended): after the n-th consecutive failed cycle, if n has
reached the fatal threshold (5) the loop terminates instead of sleeping;
otherwise the next sleep is min(300 * 2^(n-1), 3600) seconds in place of
the steady-state interval.  Failures 1..4 yield sleeps 300, 600, 1200,
2400; at failure 5 the loop stops without sleeping, so the 3600 cap is
never reached before termination. -/
theorem c2_backoff_schedule (n : Nat) (h1 : 1 ≤ n) :
    (5 ≤ n → onFailure n = .stop)
    ∧ (n < 5 → onFailure n = .sleep (min (baseDelay * 2 ^ (n - 1)) capSeconds))
    ∧ (∀ s : BotState, ∀ msg, s.status = .running → s.consecutiveErrors + 1 = n →
        (5 ≤ n → (stepCycle s (.raise msg false)).status = .stoppedFatal)
        ∧ (n < 5 → (stepCycle s (.raise msg false)).status = .running))
    ∧ [onFailure 1, onFailure 2, onFailure 3, onFailure 4]
        = [.sleep 300, .sleep 600, .sleep 1200, .sleep 2400] := by
  refine ⟨?_, ?_, ?_, by decide⟩
  · intro h5
    unfold onFailure maxErrors
    simp [h5]
  · intro h5
    unfold onFailure backoffWait maxErrors
    simp [Nat.not_le.mpr h5]
  · intro s msg hs hn
    constructor
    · intro h5
      unfold stepCycle
      simp only [hs, if_pos rfl]
      have : onFailure (s.consecutiveErrors + 1) = .stop := by
        unfold onFailure maxErrors
        rw [hn]
        simp [h5]
      simp [this]
    · intro h5
      unfold stepCycle
      simp only [hs, if_pos rfl]
      have : onFailure (s.consecutiveErrors + 1)
          = .sleep (backoffWait (s.consecutiveErrors + 1)) := by
        unfold onFailure maxErrors
        rw [hn]
        simp [Nat.not_le.mpr h5]
      simp [this]

/-- Witness for C2 (amended) at n = 3. -/
theorem c2_backoff_schedule_witness :
    ((5 ≤ 3 → onFailure 3 = .stop)
    ∧ (3 < 5 → onFailure 3 = .sleep (min (baseDelay * 2 ^ (3 - 1)) capSeconds))
    ∧ (∀ s : BotState, ∀ msg, s.status = .running → s.consecutiveErrors + 1 = 3 →
        (5 ≤ 3 → (stepCycle s (.raise msg false)).status = .stoppedFatal)
        ∧ (3 < 5 → (stepCycle s (.raise msg false)).status = .running))
    ∧ [onFailure 1, onFailure 2, onFailure 3, onFailure 4]
        = [.sleep 300, .sleep 600, .sleep 1200, .sleep 2400]) :=
  c2_backoff_schedule 3 (by decide)

/-- C3: `consecutive_errors` is reset to 0 exactly when an iteration's
`try` body completes with no unhandled exception (line 314, also when the
subsequent steady sleep is interrupted), is incremented exactly once per
iteration whose body raises an unhandled exception (line 324) — the
classified per-action failures inside `run` events never touch it — and
an interrupt before the body leaves it unchanged. -/
theorem c3_counter_reset_increment (s : BotState) (hs : s.status = .running) :
    (∀ (now : Int) (post : PostRaw) (intr : Bool),
        (stepCycle s (.run now post intr)).consecutiveErrors = 0)
    ∧ (∀ (msg : String) (bintr : Bool),
        (stepCycle s (.raise msg bintr)).consecutiveErrors = s.consecutiveErrors + 1)
    ∧ (stepCycle s .interruptStart).consecutiveErrors = s.consecutiveErrors := by
  refine ⟨?_, ?_, ?_⟩
  · intro now post intr
    unfold stepCycle
    simp [hs]
  · intro msg bintr
    unfold stepCycle
    simp only [hs, if_pos rfl]
    cases h : onFailure (s.consecutiveErrors + 1) <;> simp [h]
  · unfold stepCycle
    simp [hs]

/-- Witness for C3 at a concrete mid-run state. -/
theorem c3_counter_reset_increment_witness :
    (∀ (now : Int) (post : PostRaw) (intr : Bool),
        (stepCycle ⟨50, 2, .running⟩ (.run now post intr)).consecutiveErrors = 0)
    ∧ (∀ (msg : String) (bintr : Bool),
        (stepCycle ⟨50, 2, .running⟩ (.raise msg bintr)).consecutiveErrors = 2 + 1)
    ∧ (stepCycle ⟨50, 2, .running⟩ .interruptStart).consecutiveErrors = 2 :=
  c3_counter_reset_increment ⟨50, 2, .running⟩ rfl

/-- C4 counterexample: the claim says `isDue` is true whenever
`lastRunAt` is unset.  The code keeps `last_tweet_time` as a plain number
initialised to `0` (line 283), so with `minInterval = 3600` and clock
reading `100` the spec reading is due while the code's check
`now - last_tweet_time >= TWEET_INTERVAL` (line 298) is not. -/
theorem c4_is_due_counterexample :
    isDueSpec 3600 none 100 = true ∧ isDue 3600 0 100 = false := by
  constructor <;> decide

/-- C4 (amended): `isDue` returns true iff `now - lastRunAt ≥ minInterval`,
where an unset `lastRunAt` is represented by the sentinel `0` — so an
action that never ran is due iff `now ≥ minInterval` (true at any
realistic clock value).  With `minInterval > 0`, `isDue` is false
immediately after `markRan` (setting `lastRunAt := now`) and becomes true
exactly once `now - lastRunAt ≥ minInterval`; on set timestamps the code
agrees with the spec's contract. -/
theorem c4_is_due_contract (minInterval lastRunAt now : Int) :
    (isDue minInterval lastRunAt now = true ↔ minInterval ≤ now - lastRunAt)
    ∧ (0 < minInterval → isDue minInterval now now = false)
    ∧ (∀ t : Int, isDueSpec minInterval (some t) now = isDue minInterval t now)
    ∧ (minInterval ≤ now → isDueSpec minInterval none now = isDue minInterval 0 now) := by
  refine ⟨?_, ?_, ?_, ?_⟩
  · unfold isDue
    exact decide_eq_true_iff
  · intro hpos
    unfold isDue
    simp
    omega
  · intro t
    rfl
  · intro hle
    unfold isDueSpec isDue
    simp
    omega

/-- Witness for C4 (amended) at `minInterval = 3600`, `lastRunAt = 0`,
`now = 7200`. -/
theorem c4_is_due_contract_witness :
    ((isDue 3600 0 7200 = true ↔ (3600 : Int) ≤ 7200 - 0)
    ∧ ((0 : Int) < 3600 → isDue 3600 7200 7200 = false)
    ∧ (∀ t : Int, isDueSpec 3600 (some t) 7200 = isDue 3600 t 7200)
    ∧ ((3600 : Int) ≤ 7200 → isDueSpec 3600 none 7200 = isDue 3600 0 7200)) :=
  c4_is_due_contract 3600 0 7200

/-- C5 counterexample: the claim says `markRan` also happens on a
classified failure that is not retry-immediately.  With the post action
due (last ran at 0, clock at 7200) and `post_tweet` absorbing a
`Forbidden` error into `None` (lines 123-125), line 300 is skipped and
`last_tweet_time` stays 0 instead of becoming 7200. -/
theorem c5_mark_ran_counterexample :
    isDue TWEET_INTERVAL 0 7200 = true
    ∧ postTweet .forbidden = none
    ∧ (stepCycle ⟨0, 0, .running⟩ (.run 7200 .forbidden false)).lastTweetTime = 0
    ∧ (0 : Int) ≠ 7200 := by
  refine ⟨by decide, rfl, by decide, by decide⟩

/-- C5 (amended): `last_tweet_time := now` is performed exactly when the
action was due this cycle and `post_tweet` returned a truthy tweet id
(success); it is never performed on a classified failure (sentinel `None`)
nor when the action was skipped as not due, and an iteration whose body
raises leaves the timestamp untouched. -/
theorem c5_mark_ran_on_success (s : BotState) (now : Int) (e : PostRaw)
    (hs : s.status = .running) :
    ((stepCycle s (.run now e false)).lastTweetTime
      = if isDue TWEET_INTERVAL s.lastTweetTime now && pyTruthy (postTweet e)
        then now else s.lastTweetTime)
    ∧ (isDue TWEET_INTERVAL s.lastTweetTime now = false →
        (stepCycle s (.run now e false)).lastTweetTime = s.lastTweetTime)
    ∧ (postTweet e = none →
        (stepCycle s (.run now e false)).lastTweetTime = s.lastTweetTime)
    ∧ (∀ msg bintr, (stepCycle s (.raise msg bintr)).lastTweetTime = s.lastTweetTime) := by
  have hstep : (stepCycle s (.run now e false)).lastTweetTime
      = if isDue TWEET_INTERVAL s.lastTweetTime now && pyTruthy (postTweet e)
        then now else s.lastTweetTime := by
    unfold stepCycle
    simp [hs]
  refine ⟨hstep, ?_, ?_, ?_⟩
  · intro hdue
    rw [hstep, hdue]
    simp
  · intro hnone
    rw [hstep, hnone]
    simp [pyTruthy]
  · intro msg bintr
    unfold stepCycle
    simp only [hs, if_pos rfl]
    cases h : onFailure (s.consecutiveErrors + 1) <;> simp [h]

/-- Witness for C5 (amended): a due, successful post updates the
timestamp. -/
theorem c5_mark_ran_on_success_witness :
    ((stepCycle ⟨0, 0, .running⟩ (.run 7200 (.ok 42) false)).lastTweetTime
      = if isDue TWEET_INTERVAL 0 7200 && pyTruthy (postTweet (.ok 42))
        then 7200 else 0)
    ∧ (isDue TWEET_INTERVAL 0 7200 = false →
        (stepCycle ⟨0, 0, .running⟩ (.run 7200 (.ok 42) false)).lastTweetTime = 0)
    ∧ (postTweet (.ok 42) = none →
        (stepCycle ⟨0, 0, .running⟩ (.run 7200 (.ok 42) false)).lastTweetTime = 0)
    ∧ (∀ msg bintr,
        (stepCycle ⟨0, 0, .running⟩ (.raise msg bintr)).lastTweetTime = 0) :=
  c5_mark_ran_on_success ⟨0, 0, .running⟩ 7200 (.ok 42) rfl

/-- C6 counterexample: the claim says a cancellation signal during the
backoff sleep also transitions to Stopped with normal logging.  The
backoff `time.sleep(wait_time)` (line 334) sits inside the
`except Exception` handler, outside any `try`, so a `KeyboardInterrupt`
there propagates uncaught: the loop ends in the crashed status, not the
goodbye-logged user stop. -/
theorem c6_cancellation_counterexample :
    (stepCycle ⟨0, 0, .running⟩ (.raise "net down" true)).status = .crashed
    ∧ BotStatus.crashed ≠ .stoppedUser := by
  constructor <;> decide

/-- C6 (amended): a cancellation signal during the `try` body — at the
start of a tick or during the steady-state inter-cycle sleep — is caught
by `except KeyboardInterrupt` (lines 320-322) and transitions directly to
the user-stopped status with the normal goodbye line; no further cycle
changes the state and already-updated cadence timestamps are unaffected.
A cancellation during the backoff sleep (line 334), however, is not
caught: the loop ends in the crashed status with the interrupt
propagating. -/
theorem c6_cancellation_boundaries (s : BotState) (now : Int) (post : PostRaw)
    (evs : List CycleEvent) (hs : s.status = .running) :
    (stepCycle s (.run now post true)).status = .stoppedUser
    ∧ (stepCycle s (.run now post true)).lastTweetTime
        = (stepCycle s (.run now post false)).lastTweetTime
    ∧ runBot (stepCycle s (.run now post true)) evs = stepCycle s (.run now post true)
    ∧ (stepCycle s .interruptStart).status = .stoppedUser
    ∧ (stepCycle s .interruptStart).lastTweetTime = s.lastTweetTime
    ∧ (∀ msg, s.consecutiveErrors + 1 < maxErrors →
        (stepCycle s (.raise msg true)).status = .crashed) := by
    refine ⟨?_, ?_, ?_, ?_, ?_, ?_⟩
    · unfold stepCycle; simp [hs]
    · unfold stepCycle; simp [hs]
    · apply runBot_stopped
      unfold stepCycle
      simp [hs]
    · unfold stepCycle; simp [hs]
    · unfold stepCycle; simp [hs]
    · intro msg hlt
      unfold stepCycle
      simp only [hs, if_pos rfl]
      have : onFailure (s.consecutiveErrors + 1)
          = .sleep (backoffWait (s.consecutiveErrors + 1)) := by
        unfold onFailure
        simp [Nat.not_le.mpr hlt]
      simp [this]

/-- Witness for C6 (amended) at a concrete running state. -/
theorem c6_cancellation_boundaries_witness :
    (stepCycle ⟨0, 1, .running⟩ (.run 9000 (.ok 7) true)).status = .stoppedUser
    ∧ (stepCycle ⟨0, 1, .running⟩ (.run 9000 (.ok 7) true)).lastTweetTime
        = (stepCycle ⟨0, 1, .running⟩ (.run 9000 (.ok 7) false)).lastTweetTime
    ∧ runBot (stepCycle ⟨0, 1, .running⟩ (.run 9000 (.ok 7) true))
        [.run 9999 (.ok 8) false, .raise "x" false]
        = stepCycle ⟨0, 1, .running⟩ (.run 9000 (.ok 7) true)
    ∧ (stepCycle ⟨0, 1, .running⟩ .interruptStart).status = .stoppedUser
    ∧ (stepCycle ⟨0, 1, .running⟩ .interruptStart).lastTweetTime = 0
    ∧ (∀ msg, 1 + 1 < maxErrors →
        (stepCycle ⟨0, 1, .running⟩ (.raise msg true)).status = .crashed) :=
  c6_cancellation_boundaries ⟨0, 1, .running⟩ 9000 (.ok 7)
    [.run 9999 (.ok 8) false, .raise "x" false] rfl

/-- A `tweepy.TweepyException` outcome is absorbed by the inner handler of
`like_tweets` (lines 154-158): the like loop behaves as if that candidate
were simply skipped. -/
lemma likeLoop_tweepy_skip (msg : String) :
    ∀ (pre post : List FavRaw) (c : Nat),
      likeLoop (pre ++ .tweepyExn msg :: post) c = likeLoop (pre ++ post) c := by
  intro pre
  induction pre with
  | nil => intro post c; rfl
  | cons a rest ih =>
      intro post c
      cases a with
      | ok => simp only [List.cons_append, likeLoop]; exact ih post (c + 1)
      | tweepyExn m => simp only [List.cons_append, likeLoop]; exact ih post c
      | exn m => simp only [List.cons_append, likeLoop]

/-- When no outcome escapes the inner handler, the like loop returns
normally. -/
lemma likeLoop_total :
    ∀ (favs : List FavRaw) (c : Nat),
      (∀ m, FavRaw.exn m ∉ favs) → ∃ k, likeLoop favs c = .ok k := by
  intro favs
  induction favs with
  | nil => intro c _; exact ⟨c, rfl⟩
  | cons a rest ih =>
      intro c hno
      cases a with
      | ok =>
          obtain ⟨k, hk⟩ := ih (c + 1) (fun m hm => hno m (List.mem_cons_of_mem _ hm))
          exact ⟨k, hk⟩
      | tweepyExn m =>
          obtain ⟨k, hk⟩ := ih c (fun m hm => hno m (List.mem_cons_of_mem _ hm))
          exact ⟨k, hk⟩
      | exn m => exact absurd (List.mem_cons_self _ _) (hno m)

/-- C7: an error whose message contains "already favorited" is classified
as the benign already-done case by the inner handler of `like_tweets`
(lines 154-158); the loop treats it as a successful no-op — the remaining
candidate targets are still processed exactly as if the candidate had
been skipped — and, since no exception escapes a loop free of unhandled
outcomes, nothing reaches the scheduler's `except Exception` branch (the
only place `consecutive_errors` is incremented), so the cycle is not
marked failed. -/
theorem c7_already_done_benign (msg : String) (pre post : List FavRaw) (c : Nat)
    (h : errAlreadyFavorited msg = true) :
    classifyFav msg = .alreadyDone
    ∧ likeLoop (pre ++ .tweepyExn msg :: post) c = likeLoop (pre ++ post) c
    ∧ (∀ (favs : List FavRaw) (c2 : Nat),
        (∀ m, FavRaw.exn m ∉ favs) → ∃ k, likeLoop favs c2 = .ok k) := by
  refine ⟨?_, likeLoop_tweepy_skip msg pre post c, likeLoop_total⟩
  unfold classifyFav
  simp [h]

/-- Witness for C7 at the literal message and a concrete candidate list. -/
theorem c7_already_done_benign_witness :
    classifyFav "Already Favorited" = .alreadyDone
    ∧ likeLoop ([.ok] ++ .tweepyExn "Already Favorited" :: [.ok]) 0
        = likeLoop ([.ok] ++ [.ok]) 0
    ∧ (∀ (favs : List FavRaw) (c2 : Nat),
        (∀ m, FavRaw.exn m ∉ favs) → ∃ k, likeLoop favs c2 = .ok k) :=
  c7_already_done_benign "Already Favorited" [.ok] [.ok] 0 (by decide)

/-- C8 (code bug evaluation): with a credential environment variable
missing, `get_credentials` returns `None` and `authenticate_twitter`
returns the two-element tuple `None, None` (line 79); the caller's
three-variable unpacking (line 275) then raises an uncaught `ValueError`,
so the process crashes before printing the authentication-failure status
line — unlike the `TweepyException` path (line 110), which does return a
three-element tuple and reaches the logged graceful exit. -/
theorem c8_auth_failure_paths :
    authenticateTwitter envMissingApiKey (.ok "bot") = .pair none none
    ∧ runBotStart envMissingApiKey (.ok "bot") = .unpackCrash
    ∧ StartResult.unpackCrash ≠ .authFailedLogged
    ∧ (∀ msg,
        runBotStart ⟨some "k", some "s", some "t", some "u", some "b"⟩ (.tweepyErr msg)
          = .authFailedLogged) := by
  refine ⟨by decide, by decide, by decide, ?_⟩
  intro msg
  rfl

/-- C10: each of the four action functions maps every exception arising
from its collaborator calls to its sentinel result — `None` for
`post_tweet`, `0` for `like_tweets` (including an exception escaping the
inner like loop, caught by the outer handler), the unchanged `since_id`
for `reply_to_mentions` (including a username-lookup failure escaping the
mention loop), and `0` for `follow_back_users` — so no action invocation
raises into the scheduler loop. -/
theorem c10_actions_total :
    (∀ msg, postTweet (.exn msg) = none)
    ∧ postTweet .tooManyRequests = none
    ∧ postTweet .forbidden = none
    ∧ (∀ msg, likeTweets (.exn msg) = 0)
    ∧ likeTweets .tooManyRequests = 0
    ∧ (∀ (tweets : List LikeTweet) (msg : String),
        likeLoop ((tweets.take MAX_LIKES_PER_RUN).map LikeTweet.fav) 0 = .error msg →
        likeTweets (.ok tweets) = 0)
    ∧ (∀ sid msg, replyToMentions sid (.exn msg) = sid)
    ∧ (∀ sid, replyToMentions sid .tooManyRequests = sid)
    ∧ (∀ (sid : Option Nat) (ms : List MentionEnv),
        replyLoop sid ms sid = .error () → replyToMentions sid (.ok ms) = sid)
    ∧ (∀ msg, followBackUsers (.exn msg) = 0) := by
  refine ⟨fun _ => rfl, rfl, rfl, fun _ => rfl, rfl, ?_, fun _ _ => rfl, fun _ => rfl, ?_,
    fun _ => rfl⟩
  · intro tweets msg h
    unfold likeTweets
    simp only [List.map_take] at h
    by_cases he : tweets.isEmpty
    · simp [he]
    · simp [he, h]
  · intro sid ms h
    unfold replyToMentions
    by_cases he : ms.isEmpty
    · simp [he]
    · simp [he, h]

/-- Witness for C10: a like loop escaping via a non-Tweepy exception
yields 0, and a mention loop escaping via a username-lookup failure
returns the input cursor. -/
theorem c10_actions_total_witness :
    likeTweets (.ok [⟨5, .exn "io error"⟩]) = 0
    ∧ replyToMentions (some 4) (.ok [⟨9, true, false⟩]) = some 4 :=
  ⟨c10_actions_total.2.2.2.2.2.1 [⟨5, .exn "io error"⟩] "io error" rfl,
   c10_actions_total.2.2.2.2.2.2.2.2.1 (some 4) [⟨9, true, false⟩] rfl⟩

lemma optLe_refl (a : Option Nat) : optLe a a := by
  cases a with
  | none => trivial
  | some v => exact ⟨v, rfl, le_refl v⟩

/-- One cursor-update step of the mention loop (lines 193-195): the
running cursor either stays what it was or moves to the current mention's
id, and in the latter case, if it actually changed, that id is strictly
above any set input `since_id`. -/
lemma cursor_step (sinceId new : Option Nat) (mid : Nat)
    (hinv : cursorInv sinceId new)
    (hcond : (!pyTruthy sinceId || decide (sinceId.getD 0 < mid)) = true) :
    ((if !pyTruthy new || decide (new.getD 0 < mid) then some mid else new) = new)
    ∨ ((if !pyTruthy new || decide (new.getD 0 < mid) then some mid else new) = some mid
        ∧ ∀ v, sinceId = some v → v < mid) := by
  by_cases hup : (!pyTruthy new || decide (new.getD 0 < mid)) = true
  · rw [if_pos hup]
    by_cases hnewmid : new = some mid
    · exact Or.inl hnewmid.symm
    · refine Or.inr ⟨rfl, ?_⟩
      intro v hv
      subst hv
      by_cases hv0 : v = 0
      · subst hv0
        rcases hinv with hne | ⟨i, hi, hstrict⟩
        · rw [hne] at hnewmid
          have : mid ≠ 0 := fun h => hnewmid (by rw [h])
          omega
        · have h0i := hstrict 0 rfl
          rw [hi] at hup
          have : pyTruthy (some i) = true := by
            simp [pyTruthy]
            omega
          simp [this, Option.getD] at hup
          omega
      · have : pyTruthy (some v) = true := by
          simp [pyTruthy]
          omega
        simp [this, Option.getD] at hcond
        exact hcond
  · rw [if_neg hup]
    exact Or.inl rfl

/-- Behaviour of the mention loop (lines 192-220) on a normal return: the
final `new_since_id` either still equals the value it started from or is
the id of one of the processed mentions, strictly above any set
`since_id`. -/
lemma replyLoop_spec (sinceId : Option Nat) :
    ∀ (l : List MentionEnv) (new r : Option Nat), cursorInv sinceId new →
      replyLoop sinceId l new = .ok r →
      r = new ∨ ∃ m ∈ l, r = some m.id ∧ ∀ v, sinceId = some v → v < m.id := by
  intro l
  induction l with
  | nil =>
      intro new r _ hr
      simp only [replyLoop, Except.ok.injEq] at hr
      exact Or.inl hr.symm
  | cons m rest ih =>
      intro new r hinv hr
      simp only [replyLoop] at hr
      by_cases hcond : (!pyTruthy sinceId || decide (sinceId.getD 0 < m.id)) = true
      · rw [if_pos hcond] at hr
        by_cases hlk : m.lookupFails
        · rw [if_pos hlk] at hr
          simp at hr
        · rw [if_neg hlk] at hr
          have hstep := cursor_step sinceId new m.id hinv hcond
          have hinv' : cursorInv sinceId
              (if !pyTruthy new || decide (new.getD 0 < m.id) then some m.id else new) := by
            rcases hstep with h | ⟨h, hs⟩
            · rw [h]; exact hinv
            · rw [h]; exact Or.inr ⟨m.id, rfl, hs⟩
          rcases ih _ r hinv' hr with h | ⟨m2, hm2, hr2, hs2⟩
          · rcases hstep with he | ⟨he, hs⟩
            · exact Or.inl (by rw [h, he])
            · exact Or.inr ⟨m, List.mem_cons_self _ _, by rw [h, he], hs⟩
          · exact Or.inr ⟨m2, List.mem_cons_of_mem _ hm2, hr2, hs2⟩
      · rw [if_neg hcond] at hr
        rcases ih new r hinv hr with h | ⟨m2, hm2, hr2, hs2⟩
        · exact Or.inl h
        · exact Or.inr ⟨m2, List.mem_cons_of_mem _ hm2, hr2, hs2⟩

/-- C9: the mention cursor is monotone — for every input `since_id` and
fetch outcome, `reply_to_mentions` never returns a value below the input;
a rate limit or any other exception escaping to the outer handlers
returns the input unchanged; and whenever the returned cursor differs
from the input it is the id of one of the fetched mentions, strictly
larger than any set input cursor. -/
theorem c9_cursor_monotone (sinceId : Option Nat) (fetch : FetchRaw) :
    optLe sinceId (replyToMentions sinceId fetch)
    ∧ replyToMentions sinceId .tooManyRequests = sinceId
    ∧ (∀ msg, replyToMentions sinceId (.exn msg) = sinceId)
    ∧ (replyToMentions sinceId fetch ≠ sinceId →
        ∃ ms, fetch = .ok ms ∧ ∃ m ∈ ms,
          replyToMentions sinceId fetch = some m.id
          ∧ ∀ v, sinceId = some v → v < m.id) := by
  refine ⟨?_, rfl, fun _ => rfl, ?_⟩
  · cases fetch with
    | tooManyRequests => exact optLe_refl sinceId
    | exn msg => exact optLe_refl sinceId
    | ok ms =>
        unfold replyToMentions
        by_cases he : ms.isEmpty
        · simp only [he, if_pos]
          exact optLe_refl sinceId
        · simp only [he, Bool.false_eq_true, if_false]
          cases hlp : replyLoop sinceId ms sinceId with
          | error e => exact optLe_refl sinceId
          | ok res =>
              rcases replyLoop_spec sinceId ms sinceId res (Or.inl rfl) hlp with
                h | ⟨m, _, hres, hstrict⟩
              · rw [h]; exact optLe_refl sinceId
              · rw [hres]
                cases sinceId with
                | none => trivial
                | some v => exact ⟨m.id, rfl, le_of_lt (hstrict v rfl)⟩
  · intro hne
    cases fetch with
    | tooManyRequests => exact absurd rfl hne
    | exn msg => exact absurd rfl hne
    | ok ms =>
        refine ⟨ms, rfl, ?_⟩
        revert hne
        unfold replyToMentions
        by_cases he : ms.isEmpty
        · simp only [he, if_pos]
          intro hne
          exact absurd rfl hne
        · simp only [he, Bool.false_eq_true, if_false]
          cases hlp : replyLoop sinceId ms sinceId with
          | error e =>
              intro hne
              exact absurd rfl hne
          | ok res =>
              intro hne
              rcases replyLoop_spec sinceId ms sinceId res (Or.inl rfl) hlp with
                h | ⟨m, hm, hres, hstrict⟩
              · exact absurd h hne
              · exact ⟨m, hm, hres, hstrict⟩

/-- Witness for C9 at a concrete set cursor and one newer mention. -/
theorem c9_cursor_monotone_witness :
    optLe (some 2) (replyToMentions (some 2) (.ok [⟨5, false, false⟩]))
    ∧ replyToMentions (some 2) (.ok [⟨5, false, false⟩]) = some 5 :=
  ⟨(c9_cursor_monotone (some 2) (.ok [⟨5, false, false⟩])).1, rfl⟩

end ChatBot
